import Mathlib

/-!
Shallow embedding of `panoptes/scheduler/target.py` (class `Target`) from the
POCS repository, together with proofs about the visit sequencer, the reference
frame tracker, the duration estimator and the construction policy.

Conventions of the embedding:
  * Python exceptions are modelled by the `Exc` inductive; a method that can
    raise returns `Except Exc α`.  A `.error e` result models an uncaught
    exception `e` propagating to the caller; a `.ok` result models a normal
    return.
  * The mutable `Target` object is modelled as an immutable record; every
    method takes the pre-state and returns the post-state explicitly.
  * The `self.visits` generator produced by `get_visit_iter` is modelled by the
    cursor field `visits_cursor`: the index of the next visit the generator
    will yield.  `current_visit` stores the index of the visit object the
    Python attribute points at (the visit list itself is never rebound, and
    visits are only ever mutated in place, so an index is a faithful model of
    the object reference).
  * Opaque collaborator values (sky coordinates, WCS solutions, pixel arrays,
    offset-info records) are modelled as integer tokens: `target.py` never
    inspects their contents, it only stores and passes them.
  * Astropy time quantities are modelled as exact integers (exact arithmetic;
    float rounding is outside the model).
-/

namespace POCS

/-- Python exception classes reachable in the embedded code.  `assertionError`
is the class raised by a failing `assert` statement; `configurationError` is
the `ConfigurationError` class of `panoptes.utils.error` (modelled from the
spec as a distinct error class, since `utils/error.py` is not part of the
sample); `panError` likewise models `PanError`. -/
inductive Exc where
  | assertionError
  | indexError
  | stopIteration
  | configurationError
  | panError
deriving DecidableEq

/-- Opaque token for a plate-solve (WCS) solution stored under the `solved`
key of an image record. -/
abbrev Solved := Int

/-- Opaque token for the 2D pixel array returned by `images.read_image_data`. -/
abbrev ImgData := Int

/-- Opaque token for a resolved sky coordinate (`astropy.coordinates.SkyCoord`). -/
abbrev Coord := Int

/-- Opaque token for an offset-information record as produced by
`images.solve_offset` / `images.measure_offset`. -/
abbrev OffsetInfo := Int

/-- Token for the initial empty record `self._offset_info = {}`. -/
def emptyOffsetInfo : OffsetInfo := 0

/-- An image record: a Python dict with optional keys `fits_file`, `img_file`
and `solved` (`target.py` reads exactly these three keys, always via `.get`
with a default). -/
structure Image where
  fits_file : Option String
  img_file : Option String
  solved : Option Solved
deriving DecidableEq

/-- `image.get('fits_file', image.get('img_file', None))`: the underlying file
of an image record as computed in `get_image_offset` (lines 162-163). -/
def Image.file (i : Image) : Option String :=
  i.fits_file.orElse (fun _ => i.img_file)

/-- An exposure: its `images` attribute is an insertion-ordered mapping from
camera identifier to image record.  The keys are only ever used to index back
into the same mapping (`exposure.images[list(exposure.images)[-1]]`), so we
keep just the list of image records in insertion order. -/
structure Exposure where
  images : List Image
deriving DecidableEq

/-- Modelled from the spec: the Visit collaborator (class `Observation` of
`panoptes/scheduler/observation.py`, which is not part of the sample) exposes
`complete : bool` (true once all its exposures have been executed — driven by
the external camera loop), an ordered sequence `exposures`,
`reset_exposures()` (restarts the exposure progression, after which the visit
is not complete) and `estimate_duration()` (the visit's self-reported duration
estimate).  We model it as a record carrying exactly that interface state. -/
structure Observation where
  exposures : List Exposure
  complete : Bool
  duration : Int
deriving DecidableEq

/-- Modelled from the spec: `Observation.reset_exposures()` resets the
internal exposure progression, so afterwards the visit is not complete. -/
def Observation.reset_exposures (o : Observation) : Observation :=
  { o with complete := false }

/-- Modelled from the spec: `Observation.estimate_duration()` returns the
visit's self-reported duration estimate. -/
def Observation.estimate_duration (o : Observation) : Int :=
  o.duration

/-- The state of a `Target` object.  Field names follow the Python attribute
names; `equinox` and `epoch` model the attributes set on `self.coord`
(lines 54-55). -/
@[ext]
structure Target where
  name : String
  coord : Coord
  equinox : String
  epoch : Int
  priority : Int
  proper_motion : String × String
  visit : List Observation
  visits_cursor : Nat
  current_visit : Option Nat
  _reference_image : Option Image
  _offset_info : OffsetInfo
  _done_visiting : Bool
  _visit_num : Nat
deriving DecidableEq

/-- The read-only property `visit_num` (lines 79-81). -/
def Target.visit_num (t : Target) : Nat :=
  t._visit_num

/-- The read-only property `done_visiting` (lines 83-88). -/
def Target.done_visiting (t : Target) : Bool :=
  t._done_visiting

/-- One resumption of the `get_visit_iter` generator (lines 111-123), i.e.
`next(self.visits)`.  If the cursor is within the visit list it yields the
index of that visit after performing the mutations the generator body does
before the `yield`: `_visit_num := num`, `current_visit := visit`, and
`_done_visiting := True` exactly when `num == len(self.visit) - 1`.  If the
list is exhausted the generator returns, which surfaces as `StopIteration`. -/
def Target.visitsNext (t : Target) : Except Exc (Nat × Target) :=
  if t.visits_cursor < t.visit.length then
    let num := t.visits_cursor
    .ok (num, { t with
      _visit_num := num
      current_visit := some num
      _done_visiting := if num = t.visit.length - 1 then true else t._done_visiting
      visits_cursor := num + 1 })
  else
    .error .stopIteration

/-- `get_visit` (lines 125-137): return `current_visit` unless it is `None` or
complete, in which case advance the generator (`next(self.visits)`), letting
`StopIteration` propagate.  The `none` lookup branch is unreachable: every
index stored in `current_visit` was yielded by the generator and is therefore
within the visit list, which never changes length. -/
def Target.get_visit (t : Target) : Except Exc (Nat × Target) :=
  match t.current_visit with
  | none => t.visitsNext
  | some i =>
    match t.visit[i]? with
    | some v => if v.complete then t.visitsNext else .ok (i, t)
    | none => .ok (i, t)

/-- The `for num, visit in enumerate(self.visit): visit.reset_exposures()`
loop of `reset_visits` (lines 141-143), where the iterator is a fresh
`get_visit_iter()` generator.  `total` is `len(self.visit)` (constant: the
loop mutates elements in place, never the list structure).  `num` is the
enumerate counter and `st` carries the attribute triple
`(_visit_num, current_visit, _done_visiting)` that the generator mutates at
each yield; the loop body then resets that visit's exposures.  Returns the
updated visit list together with the final attribute triple. -/
def resetVisitsLoop (total : Nat) :
    Nat → List Observation → Nat × Option Nat × Bool →
      List Observation × (Nat × Option Nat × Bool)
  | _, [], st => ([], st)
  | num, v :: rest, st =>
    let st1 : Nat × Option Nat × Bool :=
      (num, some num, if num = total - 1 then true else st.2.2)
    let r := resetVisitsLoop total (num + 1) rest st1
    (v.reset_exposures :: r.1, r.2)

/-- `reset_visits` (lines 139-150): run the reset loop (which, as a side
effect of driving a generator, mutates `_visit_num`, `current_visit` and
`_done_visiting` at each yield), then rebuild `self.visits` as a fresh
generator (cursor 0) and overwrite `current_visit` with `None` and
`_done_visiting` with `False`.  The loop's final `current_visit` and
`_done_visiting` values are therefore discarded, but its final `_visit_num`
value is kept: nothing overwrites it. -/
def Target.reset_visits (t : Target) : Target :=
  let r := resetVisitsLoop t.visit.length 0 t.visit
    (t._visit_num, t.current_visit, t._done_visiting)
  { t with
    visit := r.1
    _visit_num := r.2.1
    visits_cursor := 0
    current_visit := none
    _done_visiting := false }

/-- The `try` block of the `reference_image` property (lines 93-103):
`self.visit[0]`, then `.exposures[0]`, then
`list(first_exp.images.values())[0]`; every `IndexError` on the way is caught
by the `except Exception` handler, leaving the cache unset.  (The `if
first_exp:` truthiness test does not affect the result: whether an empty
exposure is falsy — skipping the assignment — or truthy — in which case the
image lookup raises and is caught — the cache stays unset either way.) -/
def Target.firstRefImage? (t : Target) : Option Image :=
  match t.visit[0]? with
  | none => none
  | some firstVisit =>
    match firstVisit.exposures[0]? with
    | none => none
    | some firstExp => firstExp.images[0]?

/-- The `reference_image` property (lines 90-105): if the cache is set, return
it; otherwise attempt to read the first image of the first exposure of the
first visit, populating the cache only on success.  Returns the property value
together with the post-state. -/
def Target.reference_image (t : Target) : Option Image × Target :=
  match t._reference_image with
  | some img => (some img, t)
  | none =>
    match t.firstRefImage? with
    | some img => (some img, { t with _reference_image := some img })
    | none => (none, t)

/-- `get_image_offset` (lines 152-202).  The three collaborator functions are
the parts of the `panoptes.utils.images` module the method calls (that module
is not part of the sample): `solveOffset` models `images.solve_offset`,
`readImageData` models `images.read_image_data` (null on failure, per the
spec), and `measureOffset` models `images.measure_offset`.

Control flow, line by line: read the `reference_image` property; if it is
`None`, fall through and return `self._offset_info`.  Otherwise take the last
image of the exposure (`exposure.images[list(exposure.images)[-1]]`, which
raises `IndexError` on an empty mapping — uncaught).  If reference and
candidate resolve to the same file, skip the comparison.  Otherwise Tier 1:
`images.solve_offset` on the two `solved` records, storing the result in
`self._offset_info` on success; only an `AssertionError` is caught (line 181)
— any other exception propagates.  On `AssertionError`, Tier 2 inside a
`try/except Exception`: read both pixel arrays; if either is `None` an
exception is raised and caught; otherwise `images.measure_offset`, storing on
success, with any exception caught.  Finally return `self._offset_info`. -/
def Target.get_image_offset
    (solveOffset : Option Solved → Option Solved → Except Exc OffsetInfo)
    (readImageData : Option String → Option ImgData)
    (measureOffset : ImgData → ImgData → Option Solved → Except Exc OffsetInfo)
    (t0 : Target) (exposure : Exposure) : Except Exc (OffsetInfo × Target) :=
  let a := t0.reference_image
  let t := a.2
  match a.1 with
  | none => .ok (t._offset_info, t)
  | some referenceImage =>
    match exposure.images.getLast? with
    | none => .error .indexError
    | some lastImage =>
      let refImg := referenceImage.file
      let lastImg := lastImage.file
      if refImg = lastImg then
        .ok (t._offset_info, t)
      else
        match solveOffset referenceImage.solved lastImage.solved with
        | .ok oi => .ok (oi, { t with _offset_info := oi })
        | .error e1 =>
          if e1 = .assertionError then
            let info := referenceImage.solved
            let d1 := readImageData refImg
            let d2 := readImageData lastImg
            match d1, d2 with
            | some x, some y =>
              match measureOffset x y info with
              | .ok oi => .ok (oi, { t with _offset_info := oi })
              | .error _ => .ok (t._offset_info, t)
            | _, _ => .ok (t._offset_info, t)
          else
            .error e1

/-- `estimate_visit_duration` (lines 204-226): `duration = 0 * u.s`, then for
each observation `duration += obs.estimate_duration() + overhead`; the target
state is untouched. -/
def Target.estimate_visit_duration (t : Target) (overhead : Int) : Int × Target :=
  let d := t.visit.foldl (fun acc obs => acc + (obs.estimate_duration + overhead)) 0
  (d, t)

/-- The value stored under the `name` key of a target configuration: either a
Python string or a value of some other type (the constructor checks
`isinstance(target_config['name'], str)`). -/
inductive NameVal where
  | str (s : String)
  | nonstr
deriving DecidableEq

/-- Opaque token for one entry of the `visit` list of a target configuration
(an observation dict, consumed only by the `Observation` constructor). -/
abbrev VisitSpec := Int

/-- The observation dict `{}` used when the configuration has no `visit` key
(`target_config.get('visit', [{}])`, line 64). -/
def emptyVisitSpec : VisitSpec := 0

/-- A target configuration dict: the keys `Target.__init__` reads.  `none`
models an absent key. -/
structure TargetConfig where
  name : Option NameVal
  position : Option String
  frame : Option String
  equinox : Option String
  epoch : Option Int
  priority : Option Int
  proper_motion : Option String
  visit : Option (List VisitSpec)
deriving DecidableEq

/-- Default frame string `'icrs'` (line 50). -/
def defaultFrame : String := "icrs"

/-- Default equinox string `'2000'` (line 54). -/
def defaultEquinox : String := "2000"

/-- Default proper-motion string `'0.0 0.0'` (line 59). -/
def defaultPM : String := "0.0 0.0"

/-- Helper for `pySplit`: walk the character list, accumulating the current
token (in reverse) and emitting it at each separator run. -/
def pySplitAux : List Char → List Char → List String
  | [], acc => if acc.isEmpty then [] else [String.mk acc.reverse]
  | ch :: rest, acc =>
    if ch = ' ' then
      if acc.isEmpty then pySplitAux rest []
      else String.mk acc.reverse :: pySplitAux rest []
    else pySplitAux rest (ch :: acc)

/-- Python `str.split()` with no argument, as used on the proper-motion string
(line 59): split on runs of whitespace, discarding empty tokens.  (We split on
the space character; the configuration strings in play contain no other
whitespace.) -/
def pySplit (s : String) : List String :=
  pySplitAux s.data []

/-- `Target.__init__` (lines 27-73).  Collaborators: `resolve` models
`SkyCoord.from_name` (the external name resolver, line 47), `parse` models
`SkyCoord(position, frame=...)` (the coordinate parser, line 50; it can raise
on an unparseable position, and nothing in `__init__` catches that), and
`mkObs` models the `Observation` constructor (line 64; modelled from the spec
as total — the spec gives it no failure mode).

Control flow, line by line: the three `assert` statements (lines 38-40) raise
`AssertionError` if `name` or `position` is missing or `name` is not a
string.  Name resolution is attempted inside a bare `try/except`: on any
resolver failure the explicit `position` is parsed under the configured frame
(default `icrs`).  Then the attribute defaults are applied (equinox `'2000'`,
epoch `2000`, priority `1`), the proper-motion string is split and indexed at
`[0]` and `[1]` (raising `IndexError` if it has fewer than two tokens), the
visit list is built (default one empty visit spec), `reset_visits()` runs, and
finally lines 68-73 overwrite `_reference_image`, `_offset_info`,
`current_visit`, `_done_visiting` and `_visit_num`. -/
def Target.init (resolve : String → Except Exc Coord)
    (parse : String → String → Except Exc Coord)
    (mkObs : VisitSpec → Observation)
    (cfg : TargetConfig) : Except Exc Target :=
  match cfg.name with
  | none => .error .assertionError
  | some nameVal =>
    match cfg.position with
    | none => .error .assertionError
    | some pos =>
      match nameVal with
      | .nonstr => .error .assertionError
      | .str nm =>
        let coordE : Except Exc Coord :=
          match resolve nm with
          | .ok c => .ok c
          | .error _ => parse pos (cfg.frame.getD defaultFrame)
        match coordE with
        | .error e => .error e
        | .ok c =>
          let pm := pySplit (cfg.proper_motion.getD defaultPM)
          match pm[0]?, pm[1]? with
          | some p0, some p1 =>
            let visits := (cfg.visit.getD [emptyVisitSpec]).map mkObs
            let t0 : Target :=
              { name := nm
                coord := c
                equinox := cfg.equinox.getD defaultEquinox
                epoch := cfg.epoch.getD 2000
                priority := cfg.priority.getD 1
                proper_motion := (p0, p1)
                visit := visits
                visits_cursor := 0
                current_visit := none
                _reference_image := none
                _offset_info := emptyOffsetInfo
                _done_visiting := false
                _visit_num := 0 }
            let t1 := t0.reset_visits
            .ok { t1 with
              _reference_image := none
              _offset_info := emptyOffsetInfo
              current_visit := none
              _done_visiting := false
              _visit_num := 0 }
          | _, _ => .error .indexError

/-- The external observing loop driving visit `i` to completion: the camera
collaborator executes all of the visit's exposures, after which its `complete`
property is true.  (Mutates the visit object in place, i.e. the list entry.) -/
def Target.markVisitComplete (t : Target) (i : Nat) : Target :=
  match t.visit[i]? with
  | some v => { t with visit := t.visit.set i { v with complete := true } }
  | none => t

/-- `n` rounds of the external observing loop: call `get_visit()`, drive the
returned visit to completion, repeat.  Returns the list of yielded visit
indices and the final state; propagates any exception `get_visit` raises. -/
def driveRun : Nat → Target → Except Exc (List Nat × Target)
  | 0, t => .ok ([], t)
  | n + 1, t =>
    match t.get_visit with
    | .error e => .error e
    | .ok (i, t1) =>
      match driveRun n (t1.markVisitComplete i) with
      | .error e => .error e
      | .ok (rest, t2) => .ok (i :: rest, t2)

/-- Invariant of the sequencer after `k` visits have been yielded and driven
to completion, starting from a freshly reset target with no completed visits:
the generator cursor sits at `k`; `current_visit` is unset or points at the
most recently yielded visit; `_done_visiting` is set exactly if the last visit
has been yielded; and precisely the first `k` visits are complete. -/
def SeqInv (t : Target) (k : Nat) : Prop :=
  t.visits_cursor = k ∧
  k ≤ t.visit.length ∧
  (t.current_visit = none ∨ (1 ≤ k ∧ t.current_visit = some (k - 1))) ∧
  t._done_visiting = decide (k = t.visit.length ∧ 1 ≤ k) ∧
  ∀ j v, t.visit[j]? = some v → v.complete = decide (j < k)

/-! Concrete sample data used to instantiate the theorems below. -/

/-- An exposure with no recorded image yet. -/
def exp0 : Exposure := { images := [] }

/-- A bare incomplete visit with no exposures. -/
def obs0 : Observation := { exposures := [], complete := false, duration := 0 }

/-- A visit with two (empty) exposures — the first visit of the two-visit
scenario of the spec. -/
def visitA : Observation := { exposures := [exp0, exp0], complete := false, duration := 0 }

/-- A visit with one (empty) exposure — the second visit of the scenario. -/
def visitB : Observation := { exposures := [exp0], complete := false, duration := 0 }

/-- Sample target name. -/
def nameM42 : String := "M42"

/-- Sample explicit position string. -/
def posM42 : String := "05h35m17s -05d23m28s"

/-- Sample unresolvable target name. -/
def badName : String := "NonexistentObject123"

/-- A proper-motion string with a single token. -/
def pmOneToken : String := "0.0"

/-- A freshly constructed target (sequencing state as left by `__init__`)
carrying the given visit list. -/
def mkFreshTarget (vs : List Observation) : Target :=
  { name := nameM42
    coord := 0
    equinox := defaultEquinox
    epoch := 2000
    priority := 1
    proper_motion := (pmOneToken, pmOneToken)
    visit := vs
    visits_cursor := 0
    current_visit := none
    _reference_image := none
    _offset_info := emptyOffsetInfo
    _done_visiting := false
    _visit_num := 0 }

/-- Sample reference image file name. -/
def refFits : String := "ref.fits"

/-- A sample image record (a plain FITS file, no plate solve). -/
def img0 : Image := { fits_file := some refFits, img_file := none, solved := none }

/-- An exposure whose only (hence last) image is `img0`. -/
def expWithImg0 : Exposure := { images := [img0] }

/-- A visit whose first exposure holds `img0`. -/
def visitWithImg : Observation :=
  { exposures := [expWithImg0], complete := false, duration := 0 }

/-- A target with a populated reference-image cache. -/
def tRef : Target := { mkFreshTarget [obs0] with _reference_image := some img0 }

/-- A target whose reference image is not yet available (no image recorded). -/
def tNoRef : Target := mkFreshTarget [obs0]

/-- A target with an unset cache but an available first image. -/
def tLazy : Target := mkFreshTarget [visitWithImg]

/-- Concrete `images.solve_offset` collaborator: succeeds on two present
solves and signals failure with `AssertionError` otherwise. -/
def cSolve : Option Solved → Option Solved → Except Exc OffsetInfo :=
  fun a b =>
    match a, b with
    | some x, some y => .ok (x + y)
    | _, _ => .error .assertionError

/-- Concrete `images.read_image_data` collaborator: every read fails. -/
def cRead : Option String → Option ImgData :=
  fun _ => none

/-- Concrete `images.measure_offset` collaborator. -/
def cMeasure : ImgData → ImgData → Option Solved → Except Exc OffsetInfo :=
  fun x y _ => .ok (x - y)

/-- Concrete resolver that succeeds. -/
def cResolveOk : String → Except Exc Coord :=
  fun _ => .ok 7

/-- Concrete resolver that fails on every name. -/
def cResolveFail : String → Except Exc Coord :=
  fun _ => .error .panError

/-- Concrete coordinate parser that accepts every position string. -/
def cParse : String → String → Except Exc Coord :=
  fun _ _ => .ok 42

/-- Concrete `Observation` constructor. -/
def cMkObs : VisitSpec → Observation :=
  fun _ => obs0

/-- A configuration with no `name` key. -/
def cfgNoName : TargetConfig :=
  { name := none
    position := some posM42
    frame := none
    equinox := none
    epoch := none
    priority := none
    proper_motion := none
    visit := none }

/-- A well-formed configuration whose name the resolver cannot resolve. -/
def cfgGood : TargetConfig :=
  { cfgNoName with name := some (NameVal.str badName) }

/-- `cfgGood` with a malformed (single-token) proper-motion string. -/
def cfgBadPM : TargetConfig :=
  { cfgGood with proper_motion := some pmOneToken }

/-- The spec's two-visit scenario target: first visit with 2 exposures, second
with 1. -/
def tScenario : Target := mkFreshTarget [visitA, visitB]

/-- The scenario target after both visits have been fetched and fully
consumed. -/
def tScenarioAfter : Target :=
  match driveRun 2 tScenario with
  | .ok p => p.2
  | .error _ => tScenario

/-- A fresh two-visit target for the sequencing-order witness. -/
def tTwo : Target := mkFreshTarget [obs0, obs0]

/-! ### Helper lemmas -/

theorem resetVisitsLoop_fst (total : Nat) :
    ∀ (num : Nat) (l : List Observation) (st : Nat × Option Nat × Bool),
      (resetVisitsLoop total num l st).1 = l.map Observation.reset_exposures := by
  intro num l
  induction l generalizing num with
  | nil => intro st; rfl
  | cons v rest ih =>
    intro st
    simp [resetVisitsLoop, ih]

theorem resetVisitsLoop_visit_num (total : Nat) :
    ∀ (num : Nat) (l : List Observation) (st : Nat × Option Nat × Bool),
      (resetVisitsLoop total num l st).2.1 =
        if l.isEmpty then st.1 else num + l.length - 1 := by
  intro num l
  induction l generalizing num with
  | nil => intro st; rfl
  | cons v rest ih =>
    intro st
    simp only [resetVisitsLoop, ih, List.isEmpty_cons]
    cases rest with
    | nil => simp
    | cons w ws =>
      simp only [List.isEmpty_cons, List.length_cons, Bool.false_eq_true, if_false]
      omega

/-- Characterization of `reset_visits`: all visits have their exposures reset,
the generator cursor is rebuilt at 0, `current_visit` and `_done_visiting` are
cleared, and `_visit_num` keeps the value the reset loop left it at — the
index of the last visit (or its previous value if there are no visits). -/
theorem reset_visits_eq (t : Target) :
    t.reset_visits =
      { t with
        visit := t.visit.map Observation.reset_exposures
        _visit_num := if t.visit.isEmpty then t._visit_num else t.visit.length - 1
        visits_cursor := 0
        current_visit := none
        _done_visiting := false } := by
  unfold Target.reset_visits
  simp only [resetVisitsLoop_fst, resetVisitsLoop_visit_num, Nat.zero_add]

theorem reset_exposures_idem (o : Observation) :
    o.reset_exposures.reset_exposures = o.reset_exposures := rfl

/-- `get_visit` on a freshly reset sequencer yields visit 0. -/
theorem get_visit_fresh (t : Target) (hc : t.current_visit = none)
    (h0 : t.visits_cursor = 0) (hl : 0 < t.visit.length) :
    t.get_visit = .ok (0, { t with
      _visit_num := 0
      current_visit := some 0
      _done_visiting := if 0 = t.visit.length - 1 then true else t._done_visiting
      visits_cursor := 1 }) := by
  simp only [Target.get_visit, hc, Target.visitsNext, h0]
  rw [if_pos hl]

/-! ### Claim theorems -/

/-- Claim C6: `reset_visits()` is idempotent — calling it twice in a row
leaves the sequencer in the same state as calling it once; after a reset the
visit cursor (`current_visit`) is null, the exhaustion flag is false, and the
first subsequent `get_visit()` returns visit 0. -/
theorem C6_reset_visits_idempotent (t : Target) :
    t.reset_visits.reset_visits = t.reset_visits ∧
    t.reset_visits.current_visit = none ∧
    t.reset_visits.done_visiting = false ∧
    (1 ≤ t.visit.length → ∃ t', t.reset_visits.get_visit = .ok (0, t')) := by
  refine ⟨?_, ?_, ?_, ?_⟩
  · rw [reset_visits_eq t, reset_visits_eq]
    cases t with
    | mk nm c eqx ep pr pm vs cur cv ri oi dv vn =>
      cases vs with
      | nil => rfl
      | cons v rest =>
        simp [List.map_map, Function.comp, Observation.reset_exposures]
  · rw [reset_visits_eq]
  · rw [reset_visits_eq]; rfl
  · intro h
    exact ⟨_, get_visit_fresh t.reset_visits (by simp [reset_visits_eq])
      (by simp [reset_visits_eq]) (by simp [reset_visits_eq]; omega)⟩

/-- Witness for C6 at the two-visit scenario target. -/
theorem C6_witness :
    tScenario.reset_visits.reset_visits = tScenario.reset_visits ∧
    (∃ t', tScenario.reset_visits.get_visit = .ok (0, t')) := by
  have h := C6_reset_visits_idempotent tScenario
  exact ⟨h.1, h.2.2.2 (by decide)⟩

/-- Claim C10: after `reset_visits()` returns on a Target with N ≥ 1 visits,
the public `visit_num` property equals N - 1 (left over from the reset pass
iterating all visits), not 0 when N ≥ 2; `visit_num` becomes 0 only when the
next `get_visit()` call yields the first visit. -/
theorem C10_reset_visit_num (t : Target) (h : 1 ≤ t.visit.length) :
    t.reset_visits.visit_num = t.visit.length - 1 ∧
    (2 ≤ t.visit.length → t.reset_visits.visit_num ≠ 0) ∧
    ∃ t', t.reset_visits.get_visit = .ok (0, t') ∧ t'.visit_num = 0 := by
  have hne : t.visit.isEmpty = false := by
    cases hv : t.visit with
    | nil => rw [hv] at h; simp at h
    | cons a l => rfl
  refine ⟨?_, ?_, ?_⟩
  · rw [reset_visits_eq]
    simp [Target.visit_num, hne]
  · intro h2
    rw [reset_visits_eq]
    simp [Target.visit_num, hne]
    omega
  · exact ⟨_, get_visit_fresh t.reset_visits (by simp [reset_visits_eq])
      (by simp [reset_visits_eq]) (by simp [reset_visits_eq]; omega), rfl⟩

/-- Witness for C10 at the two-visit scenario target. -/
theorem C10_witness :
    tScenario.reset_visits.visit_num = 1 ∧ tScenario.reset_visits.visit_num ≠ 0 := by
  have h := C10_reset_visit_num tScenario (by decide)
  exact ⟨h.1, h.2.1 (by decide)⟩

theorem estimate_foldl_shift (ov : Int) (l : List Observation) :
    ∀ a : Int, l.foldl (fun acc obs => acc + (obs.estimate_duration + ov)) a =
      a + l.foldl (fun acc obs => acc + (obs.estimate_duration + ov)) 0 := by
  induction l with
  | nil => intro a; simp
  | cons o rest ih =>
    intro a
    simp only [List.foldl_cons]
    rw [ih (a + (o.estimate_duration + ov)), ih (0 + (o.estimate_duration + ov))]
    ring

/-- Claim C3 (amended): `estimate_visit_duration` is exactly additive — the
duration for a concatenated visit list equals the sum of the durations of the
two parts, with no additional overhead term (each observation already carries
its own per-observation overhead); an empty visit list yields zero duration;
the call mutates no Target state. -/
theorem C3_estimate_additive (tAB tA tB : Target) (ov : Int)
    (h : tAB.visit = tA.visit ++ tB.visit) :
    (tAB.estimate_visit_duration ov).1 =
      (tA.estimate_visit_duration ov).1 + (tB.estimate_visit_duration ov).1 ∧
    (∀ tE : Target, tE.visit = [] → (tE.estimate_visit_duration ov).1 = 0) ∧
    (∀ (t : Target) (ov2 : Int), (t.estimate_visit_duration ov2).2 = t) := by
  refine ⟨?_, ?_, ?_⟩
  · simp only [Target.estimate_visit_duration, h, List.foldl_append]
    rw [estimate_foldl_shift]
  · intro tE hE
    simp [Target.estimate_visit_duration, hE]
  · intro t ov2
    rfl

/-- Claim C3 is false as stated: for the one-visit lists A = B = `[obs0]` and
overhead 1, the duration of the concatenation is 2, while the sum of the
parts plus one overhead unit is 3. -/
theorem C3_counterexample :
    tTwo.visit = (mkFreshTarget [obs0]).visit ++ (mkFreshTarget [obs0]).visit ∧
    (tTwo.estimate_visit_duration 1).1 ≠
      ((mkFreshTarget [obs0]).estimate_visit_duration 1).1 +
        ((mkFreshTarget [obs0]).estimate_visit_duration 1).1 + 1 := by
  exact ⟨rfl, by decide⟩

/-- Witness for C3 (amended) at concrete one-visit lists and overhead 5. -/
theorem C3_witness :
    (tTwo.estimate_visit_duration 5).1 =
      ((mkFreshTarget [obs0]).estimate_visit_duration 5).1 +
        ((mkFreshTarget [obs0]).estimate_visit_duration 5).1 :=
  (C3_estimate_additive tTwo (mkFreshTarget [obs0]) (mkFreshTarget [obs0]) 5 rfl).1

/-- Claim C4 (amended): for every configuration in which `name` is missing,
`position` is missing, or `name` is not a string, Target construction fails —
by raising an `AssertionError` (the constructor guards are bare `assert`
statements), not a `ConfigurationError` — and no Target object is created. -/
theorem C4_construction_assert (resolve : String → Except Exc Coord)
    (parse : String → String → Except Exc Coord) (mkObs : VisitSpec → Observation)
    (cfg : TargetConfig)
    (h : cfg.name = none ∨ cfg.position = none ∨ cfg.name = some NameVal.nonstr) :
    Target.init resolve parse mkObs cfg = .error .assertionError := by
  rcases h with h | h | h
  · simp only [Target.init, h]
  · cases hn : cfg.name with
    | none => simp only [Target.init, hn]
    | some nv =>
      cases nv with
      | str s => simp only [Target.init, hn, h]
      | nonstr => simp only [Target.init, hn, h]
  · cases hp : cfg.position with
    | none => simp only [Target.init, h, hp]
    | some p => simp only [Target.init, h, hp]

/-- Claim C4 is false as stated: at the configuration missing `name`, the
raised exception is `AssertionError`, which is not a `ConfigurationError`. -/
theorem C4_counterexample :
    Target.init cResolveOk cParse cMkObs cfgNoName = .error .assertionError ∧
    Target.init cResolveOk cParse cMkObs cfgNoName ≠ .error .configurationError ∧
    Exc.assertionError ≠ Exc.configurationError := by
  refine ⟨rfl, ?_, by decide⟩
  intro hcontra
  have h12 : (Except.error Exc.assertionError : Except Exc Target) =
      Except.error Exc.configurationError :=
    (rfl : Target.init cResolveOk cParse cMkObs cfgNoName =
      Except.error Exc.assertionError).symm.trans hcontra
  injection h12 with h2
  exact absurd h2 (by decide)

/-- Witness for C4 (amended) at the configuration missing `name`. -/
theorem C4_witness :
    (cfgNoName.name = none ∨ cfgNoName.position = none ∨
      cfgNoName.name = some NameVal.nonstr) ∧
    Target.init cResolveOk cParse cMkObs cfgNoName = .error .assertionError :=
  ⟨Or.inl rfl, C4_construction_assert cResolveOk cParse cMkObs cfgNoName (Or.inl rfl)⟩

/-- Claim C7 (amended): for every configuration with a string `name`, a
`position` the parser accepts, and a proper-motion string (default
`'0.0 0.0'`) splitting into at least two tokens, a resolver failure is
silently recovered: construction succeeds and the constructed Target carries
the parsed position. -/
theorem C7_resolver_fallback (resolve : String → Except Exc Coord)
    (parse : String → String → Except Exc Coord) (mkObs : VisitSpec → Observation)
    (cfg : TargetConfig) (nm pos : String) (c : Coord) (err : Exc)
    (hn : cfg.name = some (NameVal.str nm)) (hp : cfg.position = some pos)
    (hr : resolve nm = .error err)
    (hparse : parse pos (cfg.frame.getD defaultFrame) = .ok c)
    (hpm : 2 ≤ (pySplit (cfg.proper_motion.getD defaultPM)).length) :
    ∃ t, Target.init resolve parse mkObs cfg = .ok t ∧ t.coord = c := by
  obtain ⟨p0, p1, rest, hl⟩ :
      ∃ p0 p1 rest, pySplit (cfg.proper_motion.getD defaultPM) = p0 :: p1 :: rest := by
    cases hq : pySplit (cfg.proper_motion.getD defaultPM) with
    | nil => rw [hq] at hpm; simp at hpm
    | cons a as =>
      cases as with
      | nil => rw [hq] at hpm; simp at hpm
      | cons b bs => exact ⟨a, b, bs, rfl⟩
  refine ⟨{ (Target.reset_visits
      { name := nm
        coord := c
        equinox := cfg.equinox.getD defaultEquinox
        epoch := cfg.epoch.getD 2000
        priority := cfg.priority.getD 1
        proper_motion := (p0, p1)
        visit := (cfg.visit.getD [emptyVisitSpec]).map mkObs
        visits_cursor := 0
        current_visit := none
        _reference_image := none
        _offset_info := emptyOffsetInfo
        _done_visiting := false
        _visit_num := 0 }) with
      _reference_image := none
      _offset_info := emptyOffsetInfo
      current_visit := none
      _done_visiting := false
      _visit_num := 0 }, ?_, ?_⟩
  · simp only [Target.init, hn, hp, hr, hparse, hl, List.getElem?_cons_zero,
      List.getElem?_cons_succ]
  · simp [reset_visits_eq]

/-- Claim C7 is false as stated: a configuration with a parseable position
but a single-token proper-motion string makes construction raise an
`IndexError` even though the resolver failure itself is recovered. -/
theorem C7_counterexample :
    Target.init cResolveFail cParse cMkObs cfgBadPM = .error .indexError := rfl

/-- Witness for C7 (amended) at the unresolvable-name configuration. -/
theorem C7_witness :
    ∃ t, Target.init cResolveFail cParse cMkObs cfgGood = .ok t ∧ t.coord = 42 :=
  C7_resolver_fallback cResolveFail cParse cMkObs cfgGood badName posM42 42
    Exc.panError rfl rfl rfl rfl (by decide)

/-- The `reference_image` accessor never touches `_offset_info` or the visit
list. -/
theorem reference_image_acc_state (t : Target) :
    ((t.reference_image).2)._offset_info = t._offset_info ∧
    ((t.reference_image).2).visit = t.visit := by
  unfold Target.reference_image
  cases t._reference_image with
  | some img => exact ⟨rfl, rfl⟩
  | none =>
    cases t.firstRefImage? with
    | some img => exact ⟨rfl, rfl⟩
    | none => exact ⟨rfl, rfl⟩

/-- `get_visit` never touches `_reference_image` or `_offset_info`. -/
theorem get_visit_pres_fields (t : Target) :
    ∀ j t', t.get_visit = .ok (j, t') →
      t'._reference_image = t._reference_image ∧ t'._offset_info = t._offset_info := by
  intro j t' h
  unfold Target.get_visit Target.visitsNext at h
  repeat' split at h
  all_goals simp only [Except.ok.injEq, Prod.mk.injEq, reduceCtorEq] at h
  all_goals obtain ⟨h1, h2⟩ := h
  all_goals rw [← h2]
  all_goals exact ⟨rfl, rfl⟩

/-- `get_image_offset` preserves a populated reference-image cache. -/
theorem get_image_offset_pres_ref
    (so : Option Solved → Option Solved → Except Exc OffsetInfo)
    (rd : Option String → Option ImgData)
    (mo : ImgData → ImgData → Option Solved → Except Exc OffsetInfo)
    (t : Target) (e : Exposure) (i : Image) (hi : t._reference_image = some i) :
    ∀ r t', Target.get_image_offset so rd mo t e = .ok (r, t') →
      t'._reference_image = some i := by
  intro r t' hoff
  simp only [Target.get_image_offset, Target.reference_image, hi] at hoff
  repeat' split at hoff
  all_goals simp only [Except.ok.injEq, Prod.mk.injEq, reduceCtorEq] at hoff
  all_goals obtain ⟨h1, h2⟩ := hoff
  all_goals rw [← h2]
  all_goals exact hi

/-- Claim C9: the `reference_image` accessor is write-once with
retry-on-absence: while unset, every access re-attempts to read the first
image of the first exposure of the first visit, returning null and leaving the
state unchanged (absence is never cached) when any of visit/exposure/image is
absent, and populating the cache on success; once non-null, the reference
image never changes under any public operation. -/
theorem C9_reference_image_write_once (t : Target) (i img : Image) :
    (t._reference_image = some i → t.reference_image = (some i, t)) ∧
    (t._reference_image = none → t.firstRefImage? = none →
      t.reference_image = (none, t)) ∧
    (t._reference_image = none → t.firstRefImage? = some img →
      t.reference_image = (some img, { t with _reference_image := some img })) ∧
    (t._reference_image = some i →
      t.reset_visits._reference_image = some i ∧
      (∀ j t', t.get_visit = .ok (j, t') → t'._reference_image = some i) ∧
      (∀ so rd mo e r t', Target.get_image_offset so rd mo t e = .ok (r, t') →
        t'._reference_image = some i) ∧
      (∀ ov, ((t.estimate_visit_duration ov).2)._reference_image = some i)) := by
  refine ⟨?_, ?_, ?_, ?_⟩
  · intro h
    simp [Target.reference_image, h]
  · intro h1 h2
    simp [Target.reference_image, h1, h2]
  · intro h1 h2
    simp [Target.reference_image, h1, h2]
  · intro h
    refine ⟨?_, ?_, ?_, ?_⟩
    · rw [reset_visits_eq]
      exact h
    · intro j t' hgv
      exact ((get_visit_pres_fields t j t' hgv).1).trans h
    · intro so rd mo e r t' hoff
      exact get_image_offset_pres_ref so rd mo t e i h r t' hoff
    · intro ov
      exact h

/-- Witness for C9 at concrete targets: populated cache (no change), absent
first image (absence not cached), available first image (cache populated),
and preservation under `reset_visits`. -/
theorem C9_witness :
    tRef.reference_image = (some img0, tRef) ∧
    tNoRef.reference_image = (none, tNoRef) ∧
    tLazy.reference_image = (some img0, { tLazy with _reference_image := some img0 }) ∧
    tRef.reset_visits._reference_image = some img0 := by
  have h1 := C9_reference_image_write_once tRef img0 img0
  have h2 := C9_reference_image_write_once tNoRef img0 img0
  have h3 := C9_reference_image_write_once tLazy img0 img0
  exact ⟨h1.1 rfl, h2.2.1 rfl rfl, h3.2.2.1 rfl rfl, (h1.2.2.2 rfl).1⟩

/-- Claim C8: `get_image_offset` performs no offset computation and returns
the current `offset_info` unchanged when (1) no reference image is available
yet, and (2) the exposure's most recent image resolves to the identical
underlying file as the reference image.  (The collaborators are universally
quantified and absent from the conclusions: no computation is invoked.) -/
theorem C8_get_image_offset_noop
    (so : Option Solved → Option Solved → Except Exc OffsetInfo)
    (rd : Option String → Option ImgData)
    (mo : ImgData → ImgData → Option Solved → Except Exc OffsetInfo)
    (t : Target) (e : Exposure) :
    (t._reference_image = none → t.firstRefImage? = none →
      Target.get_image_offset so rd mo t e = .ok (t._offset_info, t)) ∧
    (∀ r li, (t.reference_image).1 = some r → e.images.getLast? = some li →
      r.file = li.file →
      Target.get_image_offset so rd mo t e =
        .ok (t._offset_info, (t.reference_image).2) ∧
      ((t.reference_image).2)._offset_info = t._offset_info) := by
  constructor
  · intro h1 h2
    simp [Target.get_image_offset, Target.reference_image, h1, h2]
  · intro r li hr hlast hfile
    obtain ⟨t1, hacc⟩ : ∃ t1, t.reference_image = (some r, t1) := by
      refine ⟨(t.reference_image).2, ?_⟩
      rw [← hr]
    have hoffpres : t1._offset_info = t._offset_info := by
      have h0 := (reference_image_acc_state t).1
      rw [hacc] at h0
      exact h0
    rw [hacc]
    constructor
    · simp only [Target.get_image_offset, hacc, hlast, if_pos hfile, hoffpres]
    · exact hoffpres

/-- Witness for C8: a target with no image recorded anywhere (case 1), and a
target whose reference file equals the candidate's file (case 2). -/
theorem C8_witness :
    Target.get_image_offset cSolve cRead cMeasure tNoRef exp0 =
      .ok (tNoRef._offset_info, tNoRef) ∧
    Target.get_image_offset cSolve cRead cMeasure tRef expWithImg0 =
      .ok (tRef._offset_info, (tRef.reference_image).2) := by
  have h1 := C8_get_image_offset_noop cSolve cRead cMeasure tNoRef exp0
  have h2 := C8_get_image_offset_noop cSolve cRead cMeasure tRef expWithImg0
  exact ⟨h1.1 rfl rfl, (h2.2 img0 img0 rfl rfl rfl).1⟩

/-- Claim C1 (amended): for every Target whose reference image is non-null
and every exposure with at least one recorded image — and given that the
astrometric solver signals failure by assertion, which is the only failure
mode the Tier-1 handler catches — `get_image_offset` never raises: it returns
normally with the stored `offset_info`, which is either the previous value
(all failure paths) or the result of a successful tier computation. -/
theorem C1_get_image_offset_total
    (so : Option Solved → Option Solved → Except Exc OffsetInfo)
    (rd : Option String → Option ImgData)
    (mo : ImgData → ImgData → Option Solved → Except Exc OffsetInfo)
    (t : Target) (e : Exposure) (i : Image)
    (hA : ∀ a b err, so a b = .error err → err = Exc.assertionError)
    (hi : (t.reference_image).1 = some i)
    (he : e.images ≠ []) :
    ∃ r t', Target.get_image_offset so rd mo t e = .ok (r, t') ∧
      r = t'._offset_info ∧
      (t'._offset_info = t._offset_info ∨
        (∃ s1 s2, so s1 s2 = .ok r) ∨ (∃ x y inf, mo x y inf = .ok r)) := by
  obtain ⟨t1, hacc⟩ : ∃ t1, t.reference_image = (some i, t1) := by
    refine ⟨(t.reference_image).2, ?_⟩
    rw [← hi]
  have hoffpres := (reference_image_acc_state t).1
  rw [hacc] at hoffpres
  obtain ⟨li, hlast⟩ : ∃ li, e.images.getLast? = some li := by
    cases hq : e.images.getLast? with
    | none => exact absurd (List.getLast?_eq_none_iff.mp hq) he
    | some x => exact ⟨x, rfl⟩
  by_cases hfile : i.file = li.file
  · refine ⟨t1._offset_info, t1, ?_, rfl, Or.inl hoffpres⟩
    simp only [Target.get_image_offset, hacc, hlast, if_pos hfile]
  · cases hs : so i.solved li.solved with
    | ok oi =>
      refine ⟨oi, { t1 with _offset_info := oi }, ?_, rfl,
        Or.inr (Or.inl ⟨i.solved, li.solved, hs⟩)⟩
      simp only [Target.get_image_offset, hacc, hlast, if_neg hfile, hs]
    | error e1 =>
      have he1 : e1 = Exc.assertionError := hA i.solved li.solved e1 hs
      subst he1
      cases hd1 : rd i.file with
      | none =>
        refine ⟨t1._offset_info, t1, ?_, rfl, Or.inl hoffpres⟩
        simp only [Target.get_image_offset, hacc, hlast, if_neg hfile, hs,
          reduceIte, hd1]
      | some x =>
        cases hd2 : rd li.file with
        | none =>
          refine ⟨t1._offset_info, t1, ?_, rfl, Or.inl hoffpres⟩
          simp only [Target.get_image_offset, hacc, hlast, if_neg hfile, hs,
            reduceIte, hd1, hd2]
        | some y =>
          cases hm : mo x y i.solved with
          | ok oi =>
            refine ⟨oi, { t1 with _offset_info := oi }, ?_, rfl,
              Or.inr (Or.inr ⟨x, y, i.solved, hm⟩)⟩
            simp only [Target.get_image_offset, hacc, hlast, if_neg hfile, hs,
              reduceIte, hd1, hd2, hm]
          | error e2 =>
            refine ⟨t1._offset_info, t1, ?_, rfl, Or.inl hoffpres⟩
            simp only [Target.get_image_offset, hacc, hlast, if_neg hfile, hs,
              reduceIte, hd1, hd2, hm]

/-- Claim C1 is false as stated: for a Target with a non-null reference image
and an exposure with no recorded image, `get_image_offset` raises an
`IndexError` while taking the exposure's most recent image. -/
theorem C1_counterexample :
    Target.get_image_offset cSolve cRead cMeasure tRef exp0 = .error .indexError := rfl

/-- Witness for C1 (amended) at concrete collaborators, target and exposure. -/
theorem C1_witness :
    (∀ a b err, cSolve a b = .error err → err = Exc.assertionError) ∧
    expWithImg0.images ≠ [] ∧
    ∃ r t', Target.get_image_offset cSolve cRead cMeasure tRef expWithImg0 =
      .ok (r, t') ∧ r = t'._offset_info := by
  have hA : ∀ a b err, cSolve a b = .error err → err = Exc.assertionError := by
    intro a b err h
    cases a <;> cases b <;> simp [cSolve] at h <;> exact h.symm
  have hne : expWithImg0.images ≠ [] := by
    intro hcontra
    exact absurd hcontra (by decide)
  obtain ⟨r, t', h1, h2, h3⟩ := C1_get_image_offset_total cSolve cRead cMeasure
    tRef expWithImg0 img0 hA rfl hne
  exact ⟨hA, hne, r, t', h1, h2⟩

/-- Under the sequencer invariant, with visits remaining, `get_visit` yields
the visit at the cursor, performing exactly the generator's yield mutations. -/
theorem get_visit_step (t : Target) (k : Nat) (hInv : SeqInv t k)
    (hk : k < t.visit.length) :
    t.get_visit = .ok (k, { t with
      _visit_num := k
      current_visit := some k
      _done_visiting := if k = t.visit.length - 1 then true else t._done_visiting
      visits_cursor := k + 1 }) := by
  obtain ⟨hcur, hle, hcv, hdone, hcomp⟩ := hInv
  have hnext : t.visitsNext = .ok (k, { t with
      _visit_num := k
      current_visit := some k
      _done_visiting := if k = t.visit.length - 1 then true else t._done_visiting
      visits_cursor := k + 1 }) := by
    unfold Target.visitsNext
    rw [hcur, if_pos hk]
  rcases hcv with hcv | ⟨hk1, hcv⟩
  · unfold Target.get_visit
    rw [hcv]
    exact hnext
  · obtain ⟨v, hget⟩ : ∃ v, t.visit[k - 1]? = some v :=
      ⟨_, List.getElem?_eq_getElem (by omega)⟩
    have hcompl : v.complete = true := by
      rw [hcomp (k - 1) v hget]
      simp only [decide_eq_true_eq]
      omega
    simp only [Target.get_visit, hcv, hget, hcompl, reduceIte]
    exact hnext

/-- Existential form of `get_visit_step`, exposing the fields of the
post-yield state. -/
theorem get_visit_step_fields (t : Target) (k : Nat) (hInv : SeqInv t k)
    (hk : k < t.visit.length) :
    ∃ t1, t.get_visit = .ok (k, t1) ∧
      t1.visit = t.visit ∧ t1.visits_cursor = k + 1 ∧
      t1.current_visit = some k ∧ t1._visit_num = k ∧
      t1._done_visiting =
        (if k = t.visit.length - 1 then true else t._done_visiting) :=
  ⟨_, get_visit_step t k hInv hk, rfl, rfl, rfl, rfl, rfl⟩

/-- `markVisitComplete` only touches the visit list. -/
theorem markVisitComplete_fields (t : Target) (i : Nat) :
    (t.markVisitComplete i).visits_cursor = t.visits_cursor ∧
    (t.markVisitComplete i).current_visit = t.current_visit ∧
    (t.markVisitComplete i)._done_visiting = t._done_visiting ∧
    (t.markVisitComplete i).visit.length = t.visit.length := by
  unfold Target.markVisitComplete
  cases h : t.visit[i]? <;> simp

/-- The visit list after `markVisitComplete` at an in-range index. -/
theorem markVisitComplete_visit (t : Target) (i : Nat) (hi : i < t.visit.length) :
    (t.markVisitComplete i).visit = t.visit.set i { t.visit[i] with complete := true } := by
  unfold Target.markVisitComplete
  rw [List.getElem?_eq_getElem hi]

/-- Main sequencer induction: from an invariant state with `m` visits left,
`m` rounds of the observing loop yield exactly the indices
`k, k+1, ..., k+m-1` in order, re-establishing the invariant. -/
theorem drive_inv (m : Nat) : ∀ (k : Nat) (t : Target), SeqInv t k →
    k + m ≤ t.visit.length →
    ∃ tf, driveRun m t = .ok (List.range' k m, tf) ∧ SeqInv tf (k + m) ∧
      tf.visit.length = t.visit.length := by
  induction m with
  | zero =>
    intro k t hInv hlen
    exact ⟨t, rfl, by simpa using hInv, rfl⟩
  | succ n ih =>
    intro k t hInv hlen
    have hk : k < t.visit.length := by omega
    obtain ⟨t1, hgv, ht1v, ht1c, ht1cv, ht1vn, ht1d⟩ := get_visit_step_fields t k hInv hk
    have hdf : t._done_visiting = false := by
      rw [hInv.2.2.2.1]
      simp only [decide_eq_false_iff_not]
      omega
    have hmc := markVisitComplete_fields t1 k
    have hlt1 : k < t1.visit.length := by rw [ht1v]; exact hk
    have hInv2 : SeqInv (t1.markVisitComplete k) (k + 1) := by
      refine ⟨?_, ?_, ?_, ?_, ?_⟩
      · rw [hmc.1, ht1c]
      · rw [hmc.2.2.2, ht1v]
        omega
      · exact Or.inr ⟨by omega, by rw [hmc.2.1, ht1cv]; simp⟩
      · rw [hmc.2.2.1, ht1d, hdf, hmc.2.2.2, ht1v]
        by_cases hkl : k = t.visit.length - 1
        · rw [if_pos hkl]
          have h3 : k + 1 = t.visit.length ∧ 1 ≤ k + 1 := by omega
          exact (decide_eq_true h3).symm
        · rw [if_neg hkl]
          have h3 : ¬(k + 1 = t.visit.length ∧ 1 ≤ k + 1) := by omega
          exact (decide_eq_false h3).symm
      · intro j w hw
        rw [markVisitComplete_visit t1 k hlt1] at hw
        by_cases hj : j = k
        · subst hj
          rw [List.getElem?_set_self (by omega)] at hw
          injection hw with hw
          rw [← hw]
          simp
        · rw [List.getElem?_set_ne (by omega)] at hw
          rw [ht1v] at hw
          rw [hInv.2.2.2.2 j w hw]
          have hiff : (j < k + 1) ↔ (j < k) := by omega
          simp [hiff]
    have hlen2 : (k + 1) + n ≤ (t1.markVisitComplete k).visit.length := by
      rw [hmc.2.2.2, ht1v]
      omega
    obtain ⟨tf, hrun, hInvf, hlenf⟩ := ih (k + 1) (t1.markVisitComplete k) hInv2 hlen2
    refine ⟨tf, ?_, ?_, ?_⟩
    · simp only [driveRun, hgv, hrun]
      rw [List.range'_succ]
    · have heq : (k + 1) + n = k + (n + 1) := by omega
      rwa [heq] at hInvf
    · rw [hlenf, hmc.2.2.2, ht1v]

/-- Claim C2: on a fresh Target with N ≥ 1 incomplete visits, driving each
visit returned by `get_visit()` to completion yields exactly the N visits in
specification order, and `done_visiting` is set to true at the moment the
last (Nth) visit is yielded, while that visit is still current and still
incomplete. -/
theorem C2_sequencing_order (t : Target) (N : Nat)
    (hN : t.visit.length = N) (h1 : 1 ≤ N)
    (hc : t.visits_cursor = 0) (hcv : t.current_visit = none)
    (hd : t._done_visiting = false)
    (hcomp : ∀ v ∈ t.visit, v.complete = false) :
    (∃ tf, driveRun N t = .ok (List.range N, tf) ∧ tf.done_visiting = true) ∧
    (∃ t1 tl, driveRun (N - 1) t = .ok (List.range' 0 (N - 1), t1) ∧
      t1.done_visiting = false ∧
      t1.get_visit = .ok (N - 1, tl) ∧
      tl.done_visiting = true ∧
      tl.current_visit = some (N - 1) ∧
      ∃ v, tl.visit[N - 1]? = some v ∧ v.complete = false) := by
  have hInv0 : SeqInv t 0 := by
    refine ⟨hc, by omega, Or.inl hcv, by rw [hd]; simp, ?_⟩
    intro j v hj
    have hm : v ∈ t.visit := List.mem_iff_getElem?.mpr ⟨j, hj⟩
    simp [hcomp v hm]
  constructor
  · obtain ⟨tf, hrun, hInvf, hlenf⟩ := drive_inv N 0 t hInv0 (by omega)
    refine ⟨tf, ?_, ?_⟩
    · rw [List.range_eq_range']
      exact hrun
    · rw [Target.done_visiting, hInvf.2.2.2.1, hlenf, hN]
      simp only [decide_eq_true_eq]
      omega
  · obtain ⟨t1, hrun1, hInv1, hlen1⟩ := drive_inv (N - 1) 0 t hInv0 (by rw [hN]; omega)
    rw [Nat.zero_add] at hInv1
    have hkN : N - 1 < t1.visit.length := by
      rw [hlen1, hN]
      omega
    obtain ⟨tl, hgv, htlv, htlc, htlcv, htlvn, htld⟩ :=
      get_visit_step_fields t1 (N - 1) hInv1 hkN
    refine ⟨t1, tl, hrun1, ?_, hgv, ?_, htlcv, ?_⟩
    · rw [Target.done_visiting, hInv1.2.2.2.1, hlen1, hN]
      simp only [decide_eq_false_iff_not]
      omega
    · rw [Target.done_visiting, htld]
      have h2 : N - 1 = t1.visit.length - 1 := by rw [hlen1, hN]
      rw [if_pos h2]
    · obtain ⟨v, hgot⟩ : ∃ v, t1.visit[N - 1]? = some v :=
        ⟨_, List.getElem?_eq_getElem hkN⟩
      refine ⟨v, by rw [htlv]; exact hgot, ?_⟩
      rw [hInv1.2.2.2.2 (N - 1) v hgot]
      simp

/-- Witness for C2 at a fresh two-visit target. -/
theorem C2_witness :
    (∀ v ∈ tTwo.visit, v.complete = false) ∧
    ∃ tf, driveRun 2 tTwo = .ok (List.range 2, tf) ∧ tf.done_visiting = true := by
  have hcomp : ∀ v ∈ tTwo.visit, v.complete = false := by decide
  have h := C2_sequencing_order tTwo 2 rfl (by omega) rfl rfl rfl hcomp
  exact ⟨hcomp, h.1⟩

/-- Claim C5: once the visit sequence is exhausted (the generator cursor has
passed every visit) and the current (final) visit is complete, a further
`get_visit()` call raises `StopIteration`. -/
theorem C5_get_visit_exhausted (t : Target)
    (hcur : t.visit.length ≤ t.visits_cursor)
    (hcv : t.current_visit = none ∨
      ∃ i v, t.current_visit = some i ∧ t.visit[i]? = some v ∧ v.complete = true) :
    t.get_visit = .error .stopIteration := by
  have hnext : t.visitsNext = .error .stopIteration := by
    unfold Target.visitsNext
    rw [if_neg (by omega)]
  rcases hcv with hcv | ⟨i, v, hcv, hv, hcompl⟩
  · unfold Target.get_visit
    rw [hcv]
    exact hnext
  · simp only [Target.get_visit, hcv, hv, hcompl, reduceIte]
    exact hnext

/-- Witness for C5: the spec's two-visit scenario (first visit with 2
exposures, second with 1) — after fully consuming both visits, a third
`get_visit()` call raises the exhaustion condition. -/
theorem C5_witness :
    driveRun 2 tScenario = .ok ([0, 1], tScenarioAfter) ∧
    tScenarioAfter.get_visit = .error .stopIteration := by
  constructor
  · rfl
  · exact C5_get_visit_exhausted tScenarioAfter (by decide)
      (Or.inr ⟨1, { exposures := [exp0], complete := true, duration := 0 },
        rfl, by decide, rfl⟩)

end POCS
